import Mathlib

/-!
Shallow embedding of `src/classroom/student/student.py` (class `Student`).

Modelling conventions:
* Python objects have identity; every mutable object owned by a `Student`
  is wrapped in `Tagged`, a value together with a numeric object id.
  `copy.deepcopy` re-tags with fresh ids drawn from an allocation counter
  that operations thread through.
* Floating point numerics are modelled by exact rationals extended with the
  non-finite IEEE values (`FVal`): `nan`, `+inf`, `-inf`.
* External collaborators (the optimizer's parameter update, wall-clock
  elapsed time, `random.choice`, the `Categorical` sampler) are oracle
  parameters of the corresponding operations; the theorems quantify over
  them.
-/

/-- A Python object: a value together with its object identity. -/
structure Tagged (α : Type) where
  id : Nat
  val : α
  deriving DecidableEq

/-- Rational numbers extended with the IEEE non-finite values. -/
inductive FVal where
  | fin (q : ℚ)
  | nan
  | pinf
  | ninf
  deriving DecidableEq, Repr

namespace FVal

def neg : FVal → FVal
  | fin q => fin (-q)
  | nan => nan
  | pinf => ninf
  | ninf => pinf

def add : FVal → FVal → FVal
  | nan, _ => nan
  | _, nan => nan
  | pinf, ninf => nan
  | ninf, pinf => nan
  | pinf, _ => pinf
  | _, pinf => pinf
  | ninf, _ => ninf
  | _, ninf => ninf
  | fin a, fin b => fin (a + b)

def sub (a b : FVal) : FVal := add a (neg b)

def div : FVal → FVal → FVal
  | nan, _ => nan
  | _, nan => nan
  | pinf, pinf => nan
  | pinf, ninf => nan
  | ninf, pinf => nan
  | ninf, ninf => nan
  | pinf, fin b => if b < 0 then ninf else pinf
  | ninf, fin b => if b < 0 then pinf else ninf
  | fin _, pinf => fin 0
  | fin _, ninf => fin 0
  | fin a, fin b =>
      if b = 0 then (if a = 0 then nan else if 0 < a then pinf else ninf)
      else fin (a / b)

/-- `np.mean`: the mean of a list, `nan` on the empty list. -/
def mean (l : List FVal) : FVal :=
  if l.isEmpty then nan else (l.foldl add (fin 0)).div (fin (l.length : ℚ))

end FVal

/-- `torch.nan_to_num(_, nan=0.0, posinf=0.0, neginf=0.0)`, elementwise. -/
def nan_to_num : FVal → FVal
  | .fin q => .fin q
  | _ => .fin 0

/-- A batch as returned by `dataset.batch`: token-id rows. -/
abbrev Batch := List (List Nat)

/-- The model collaborator: per-example losses on a batch, the configuration
attributes `n_ctx` and `n_vocab_out`, and its named parameters
(name, numel). -/
structure ModelV where
  f : Batch → List FVal
  n_ctx : Nat
  n_vocab_out : Nat
  params : List (String × Nat)

/-- The optimizer collaborator: `param_groups[0]["lr"]` is a function of the
step count. -/
structure OptV where
  lr : Nat → ℚ

/-- The dataset collaborator: `batch(batch_size, example_length)`. -/
structure DatasetV where
  batchf : Int → Int → Batch

abbrev Model := Tagged ModelV
abbrev Opt := Tagged OptV
abbrev Dataset := Tagged DatasetV

/-- The non-`parent` fields of a `Student`, in source order; `sid` is the
Student object's own identity. -/
structure SCore where
  sid : Nat
  model : Model
  optimizer : Opt
  dataset : Dataset
  batch_size : Int
  example_length : Int
  time : ℚ
  times : Tagged (List ℚ)
  grades : Tagged (List FVal)
  baseline : Option Model
  baseline_grades : Tagged (List FVal)
  relative_grades : Tagged (List FVal)

/-- A `Student`: its fields plus the optional `parent` snapshot. -/
inductive Student where
  | mk (core : SCore) (parent : Option Student)

namespace Student

def core : Student → SCore
  | .mk c _ => c

def parent : Student → Option Student
  | .mk _ p => p

def setParent : Student → Option Student → Student
  | .mk c _, p => .mk c p

def setBaseline : Student → Option Model → Student
  | .mk c p, b => .mk { c with baseline := b } p

/-- Fresh re-tagging of a core, ids `c, c+1, …, c+8`. -/
def retagCore (c : Nat) (sc : SCore) : SCore :=
  { sid := c
    model := ⟨c + 1, sc.model.val⟩
    optimizer := ⟨c + 2, sc.optimizer.val⟩
    dataset := ⟨c + 3, sc.dataset.val⟩
    batch_size := sc.batch_size
    example_length := sc.example_length
    time := sc.time
    times := ⟨c + 4, sc.times.val⟩
    grades := ⟨c + 5, sc.grades.val⟩
    baseline := sc.baseline.map (fun b => ⟨c + 6, b.val⟩)
    baseline_grades := ⟨c + 7, sc.baseline_grades.val⟩
    relative_grades := ⟨c + 8, sc.relative_grades.val⟩ }

/-- `copy.deepcopy` on a `Student`: every reachable object gets a fresh id;
returns the copy and the advanced allocation counter. -/
def deepcopy : Nat → Student → Student × Nat
  | c, .mk sc none => (.mk (retagCore c sc) none, c + 9)
  | c, .mk sc (some p) =>
      let r := deepcopy c p
      (.mk (retagCore r.2 sc) (some r.1), r.2 + 9)

/-- `Student.clone`, statement by statement:
`tmp1 = self.parent; tmp2 = self.baseline;`
`self.parent = None; self.baseline = None;`
`clone = copy.deepcopy(self);`
`self.parent = tmp1; clone.parent = tmp1;`
`self.baseline = tmp2; clone.baseline = tmp2; return clone`.
Returns (`self` after the call, the returned clone, counter). -/
def clone (c : Nat) (s : Student) : Student × Student × Nat :=
  let tmp1 := s.parent
  let tmp2 := s.core.baseline
  let sD := setBaseline (setParent s none) none
  let r := deepcopy c sD
  let selfA := setBaseline (setParent sD tmp1) tmp2
  let cl := setBaseline (setParent r.1 tmp1) tmp2
  (selfA, cl, r.2)

/-- `Student.push`:
`self.parent = None; self.parent = self.clone();`
`self.baseline = self.parent.model`. -/
def push (c : Nat) (s : Student) : Student × Nat :=
  let s0 := setParent s none
  let r := clone c s0
  let s1 := setParent r.1 (some r.2.1)
  (setBaseline s1 (some r.2.1.core.model), r.2.2)

/-- `Student.pop`: no-op when `parent is None`; otherwise clone the parent
and overwrite every field from the clone. `times`, `grades`,
`baseline_grades`, `relative_grades` are updated by `clear()`/`extend()`,
so those list objects keep their identity and take the clone's contents. -/
def pop (c : Nat) (s : Student) : Student × Nat :=
  match s.parent with
  | none => (s, c)
  | some p =>
      let r := clone c p
      let cl := r.2.1
      (.mk { sid := s.core.sid
             model := cl.core.model
             optimizer := cl.core.optimizer
             dataset := cl.core.dataset
             batch_size := cl.core.batch_size
             example_length := cl.core.example_length
             time := cl.core.time
             times := ⟨s.core.times.id, cl.core.times.val⟩
             grades := ⟨s.core.grades.id, cl.core.grades.val⟩
             baseline := cl.core.baseline
             baseline_grades := ⟨s.core.baseline_grades.id, cl.core.baseline_grades.val⟩
             relative_grades := ⟨s.core.relative_grades.id, cl.core.relative_grades.val⟩ }
          cl.parent, r.2.2)

/-- `Student.__init__(model, optimizer, dataset, batch_size, example_length)`:
metrics start empty, `time = 0.0`, `parent = None`, `baseline = None`.
The ids `c, …, c+8` are the identities of the freshly allocated objects. -/
def init (c : Nat) (model : ModelV) (optimizer : OptV) (dataset : DatasetV)
    (batch_size example_length : Int) : Student :=
  .mk { sid := c
        model := ⟨c + 1, model⟩
        optimizer := ⟨c + 2, optimizer⟩
        dataset := ⟨c + 3, dataset⟩
        batch_size := batch_size
        example_length := example_length
        time := 0
        times := ⟨c + 4, []⟩
        grades := ⟨c + 5, []⟩
        baseline := none
        baseline_grades := ⟨c + 7, []⟩
        relative_grades := ⟨c + 8, []⟩ }
      none

end Student

/-- The checkpoint dict written by `Student.save`, one field per key. -/
structure Checkpoint where
  model : Model
  optimizer : Opt
  dataset : Dataset
  batch_size : Int
  example_length : Int
  time : ℚ
  times : Tagged (List ℚ)
  grades : Tagged (List FVal)
  parent : Option Student
  baseline : Option Model
  baseline_grades : Tagged (List FVal)
  relative_grades : Tagged (List FVal)

namespace Student

/-- `Student.save`: build the checkpoint dict from the twelve fields and
hand it to `torch.save` (the on-disk byte format is abstracted away;
the checkpoint value is what the file denotes). -/
def save (s : Student) : Checkpoint :=
  { model := s.core.model
    optimizer := s.core.optimizer
    dataset := s.core.dataset
    batch_size := s.core.batch_size
    example_length := s.core.example_length
    time := s.core.time
    times := s.core.times
    grades := s.core.grades
    parent := s.parent
    baseline := s.core.baseline
    baseline_grades := s.core.baseline_grades
    relative_grades := s.core.relative_grades }

/-- `torch.load` deserializes a fresh object graph: structurally equal to
what was saved, with fresh object identities.  `Student.load` then assigns
each checkpoint entry to the corresponding field of `self`. -/
def load (c : Nat) (ck : Checkpoint) (s : Student) : Student × Nat :=
  let pr : Option Student × Nat :=
    match ck.parent with
    | none => (none, c)
    | some p => let r := deepcopy c p; (some r.1, r.2)
  let c1 := pr.2
  (.mk { sid := s.core.sid
         model := ⟨c1, ck.model.val⟩
         optimizer := ⟨c1 + 1, ck.optimizer.val⟩
         dataset := ⟨c1 + 2, ck.dataset.val⟩
         batch_size := ck.batch_size
         example_length := ck.example_length
         time := ck.time
         times := ⟨c1 + 3, ck.times.val⟩
         grades := ⟨c1 + 4, ck.grades.val⟩
         baseline := ck.baseline.map (fun b => ⟨c1 + 5, b.val⟩)
         baseline_grades := ⟨c1 + 6, ck.baseline_grades.val⟩
         relative_grades := ⟨c1 + 7, ck.relative_grades.val⟩ }
      pr.1, c1 + 8)

/-- `Student.load_from_path`: `student = Student(); student.load(path)`. -/
def load_from_path (c : Nat) (ck : Checkpoint) : Student × Nat :=
  let fresh := init c ⟨fun _ => [], 0, 0, []⟩ ⟨fun _ => 0⟩ ⟨fun _ _ => []⟩ 0 0
  load (c + 9) ck fresh

/-- `Student.study`.  The closure draws a batch, computes per-example
losses, replaces non-finite losses by `0.0` (`torch.nan_to_num`), and — if a
baseline is set — evaluates the baseline model on the same batch (its losses
are not nan-replaced).  `optimizer.step(closure)` runs the closure on the
pre-step weights and applies an update to the model and optimizer internals;
that update (`stepm`, `stepo`) and the wall-clock `elapsed` are external
inputs.  The metrics are then appended exactly as in the source:
`grade = 1.0 - np.mean(losses)`; with a baseline,
`baseline_grade = 1.0 - np.mean(baseline_losses)` and
`relative_grade = grade/(1e-8 + baseline_grade)`; without one,
`baseline_grade = grade` and `relative_grade = 1.0`. -/
def study (elapsed : ℚ) (stepm : ModelV → ModelV) (stepo : OptV → OptV) :
    Student → Student
  | .mk sc parent =>
    let batch := sc.dataset.val.batchf sc.batch_size sc.example_length
    let losses := (sc.model.val.f batch).map nan_to_num
    let baseline_losses : Option (List FVal) :=
      sc.baseline.map (fun b => b.val.f batch)
    let grade := FVal.sub (.fin 1) (FVal.mean losses)
    let bg_rg : FVal × FVal :=
      match baseline_losses with
      | some bl =>
          let bg := FVal.sub (.fin 1) (FVal.mean bl)
          (bg, grade.div (FVal.add (.fin (1 / 10 ^ 8)) bg))
      | none => (grade, .fin 1)
    .mk { sc with
          model := ⟨sc.model.id, stepm sc.model.val⟩
          optimizer := ⟨sc.optimizer.id, stepo sc.optimizer.val⟩
          time := sc.time + elapsed
          times := ⟨sc.times.id, sc.times.val ++ [elapsed]⟩
          grades := ⟨sc.grades.id, sc.grades.val ++ [grade]⟩
          baseline_grades := ⟨sc.baseline_grades.id, sc.baseline_grades.val ++ [bg_rg.1]⟩
          relative_grades := ⟨sc.relative_grades.id, sc.relative_grades.val ++ [bg_rg.2]⟩ }
      parent

/-- Python `int()` applied to a float/rational: truncation toward zero. -/
def pyInt (q : ℚ) : Int :=
  if q < 0 then -⌊-q⌋ else ⌊q⌋

/-- The multiplier population of `random.choice([0.5, 0.75, 1.0/0.75, 2.0])`. -/
def lrChoices : List ℚ := [1 / 2, 3 / 4, 1 / (3 / 4), 2]

/-- `Student.mutate`.  `r1`, `r2` are the two `random.choice` draws:
`self.batch_size = int(r1 * self.batch_size)`;
`lr = self.optimizer.param_groups[0]["lr"](0) * r2`;
`if lr == 0.0: lr = 1e-6`;
`self.optimizer.param_groups[0]["lr"] = lambda n: lr` (the optimizer object
is mutated in place, so it keeps its identity). -/
def mutate (r1 r2 : ℚ) : Student → Student
  | .mk sc parent =>
    let bs := pyInt (r1 * (sc.batch_size : ℚ))
    let lr0 := sc.optimizer.val.lr 0
    let lr1 := lr0 * r2
    let lr2 := if lr1 = 0 then 1 / 10 ^ 6 else lr1
    .mk { sc with
          batch_size := bs
          optimizer := ⟨sc.optimizer.id, { lr := fun _ => lr2 }⟩ }
      parent

/-- `Student.parameter_histograms`.  The first statement of the loop body,
`bins = math.floor(math.sqrt(n))`, evaluates the name `math`, which the
module never imports, so Python raises `NameError` on the first iteration
over `self.model.named_parameters()`; the histogram computation after it is
unreachable.  With no parameters the loop body never runs and the empty
dict is returned. -/
def parameter_histograms (s : Student) :
    Except String (List (String × (List ℚ × List ℚ))) :=
  match s.core.model.val.params with
  | [] => .ok []
  | _ :: _ => .error "NameError: name math is not defined"

end Student

/-- Python's slice `x[-n:]` on a list, including the `n = 0` pitfall:
`-0 == 0`, so `x[-0:]` is `x[0:]`, the whole list. -/
def pySliceLast (n : Nat) (l : List α) : List α :=
  if n = 0 then l else l.drop (l.length - n)

namespace Student

/-- The running context of `Student.autocomplete` right before the loop:
`x = encode(prompt)` followed by `x = x[-n_ctx:]`. -/
def autocompleteInit (encode : String → List Nat) (prompt : String)
    (n_ctx : Nat) : List Nat :=
  pySliceLast n_ctx (encode prompt)

/-- The generator loop of `Student.autocomplete`: at each of `n_generate`
iterations, sample `y` from the model's next-token distribution on the
current context (`sample` is the `Categorical(...).sample().item()` oracle),
set `x = (x + [y])[-n_ctx:]`, and append `y` to `output` when one was
supplied.  Returns the yielded tokens and the final accumulator. -/
def sampler (sample : List Nat → Nat) (n_ctx : Nat) :
    Nat → List Nat → Option (List Nat) → List Nat × Option (List Nat)
  | 0, _, output => ([], output)
  | n + 1, x, output =>
      let y := sample x
      let x1 := pySliceLast n_ctx (x ++ [y])
      let output1 := output.map (fun o => o ++ [y])
      let r := sampler sample n_ctx n x1 output1
      (y :: r.1, r.2)

/-- `Student.autocomplete` with an explicit prompt: encode and truncate the
prompt, run the generator for `n_generate` steps, and return
`decode(list(sampler(x)))` together with the final `output` accumulator. -/
def autocomplete (encode : String → List Nat) (decode : List Nat → String)
    (sample : List Nat → Nat) (prompt : String) (n_generate n_ctx : Nat)
    (output : Option (List Nat)) : String × Option (List Nat) :=
  let x := autocompleteInit encode prompt n_ctx
  let r := sampler sample n_ctx n_generate x output
  (decode r.1, r.2)

end Student

/-! ### Observers used by the specification -/

/-- The documented state invariant of one `Student` record: the four metric
sequences have equal lengths, and `time` is the sum of `times`. -/
def coreInvB (sc : SCore) : Bool :=
  (sc.times.val.length == sc.grades.val.length)
  && (sc.grades.val.length == sc.baseline_grades.val.length)
  && (sc.baseline_grades.val.length == sc.relative_grades.val.length)
  && (sc.time == sc.times.val.sum)

/-- The invariant, extended through the `parent` chain. -/
def invB : Student → Bool
  | .mk sc none => coreInvB sc
  | .mk sc (some p) => coreInvB sc && invB p

def invOpt : Option Student → Bool
  | none => true
  | some s => invB s

/-- The largest object id occurring in a core. -/
def coreMaxId (sc : SCore) : Nat :=
  max sc.sid (max sc.model.id (max sc.optimizer.id (max sc.dataset.id
    (max sc.times.id (max sc.grades.id
      (max (match sc.baseline with | none => 0 | some b => b.id)
        (max sc.baseline_grades.id sc.relative_grades.id)))))))

/-- The largest object id reachable from a `Student`. -/
def maxId : Student → Nat
  | .mk sc none => coreMaxId sc
  | .mk sc (some p) => max (coreMaxId sc) (maxId p)

/-- A core with the object identities erased: the shape compared by
"structural equivalence". -/
structure UCore where
  model : ModelV
  optimizer : OptV
  dataset : DatasetV
  batch_size : Int
  example_length : Int
  time : ℚ
  times : List ℚ
  grades : List FVal
  baseline : Option ModelV
  baseline_grades : List FVal
  relative_grades : List FVal

def untagCore (sc : SCore) : UCore :=
  { model := sc.model.val
    optimizer := sc.optimizer.val
    dataset := sc.dataset.val
    batch_size := sc.batch_size
    example_length := sc.example_length
    time := sc.time
    times := sc.times.val
    grades := sc.grades.val
    baseline := sc.baseline.map Tagged.val
    baseline_grades := sc.baseline_grades.val
    relative_grades := sc.relative_grades.val }

/-- A `Student` with object identities erased. -/
inductive UStudent where
  | mk (core : UCore) (parent : Option UStudent)

/-- Erase all object identities: two students are structurally equivalent
iff `untag` sends them to the same value. -/
def untag : Student → UStudent
  | .mk sc none => .mk (untagCore sc) none
  | .mk sc (some p) => .mk (untagCore sc) (some (untag p))

/-- One in-between operation of the hill-climbing loop: a `study()` call
(with its oracle inputs) or a `mutate()` call (with its random draws). -/
inductive Op where
  | study (elapsed : ℚ) (stepm : ModelV → ModelV) (stepo : OptV → OptV)
  | mutate (r1 r2 : ℚ)

def applyOp : Op → Student → Student
  | .study e sm so, s => Student.study e sm so s
  | .mutate r1 r2, s => Student.mutate r1 r2 s

def applyOps (ops : List Op) (s : Student) : Student :=
  ops.foldl (fun t o => applyOp o t) s

/-! ### Rewrite lemmas for the snapshot operations -/

/-- The core produced by cloning `sc` with fresh ids starting at `c`:
every owned object is re-tagged, while `baseline` keeps the original
reference (it is detached during the deep copy and reattached after). -/
def cloneCore (c : Nat) (sc : SCore) : SCore :=
  { sid := c
    model := ⟨c + 1, sc.model.val⟩
    optimizer := ⟨c + 2, sc.optimizer.val⟩
    dataset := ⟨c + 3, sc.dataset.val⟩
    batch_size := sc.batch_size
    example_length := sc.example_length
    time := sc.time
    times := ⟨c + 4, sc.times.val⟩
    grades := ⟨c + 5, sc.grades.val⟩
    baseline := sc.baseline
    baseline_grades := ⟨c + 7, sc.baseline_grades.val⟩
    relative_grades := ⟨c + 8, sc.relative_grades.val⟩ }

theorem clone_eq (c : Nat) (sc : SCore) (par : Option Student) :
    Student.clone c (.mk sc par) = (.mk sc par, .mk (cloneCore c sc) par, c + 9) := by
  cases sc
  simp [Student.clone, Student.deepcopy, Student.setParent, Student.setBaseline,
    Student.retagCore, cloneCore, Student.core, Student.parent]

theorem push_eq (c : Nat) (sc : SCore) (par : Option Student) :
    Student.push c (.mk sc par) =
      (.mk { sc with baseline := some ⟨c + 1, sc.model.val⟩ }
         (some (.mk (cloneCore c sc) none)), c + 9) := by
  cases sc
  simp [Student.push, clone_eq, Student.setParent, Student.setBaseline,
    Student.core, cloneCore]

theorem pop_none (c : Nat) (sc : SCore) :
    Student.pop c (.mk sc none) = (.mk sc none, c) := by
  simp [Student.pop, Student.parent]

theorem pop_some (c : Nat) (sc pc : SCore) (pp : Option Student) :
    Student.pop c (.mk sc (some (.mk pc pp))) =
      (.mk { sid := sc.sid
             model := ⟨c + 1, pc.model.val⟩
             optimizer := ⟨c + 2, pc.optimizer.val⟩
             dataset := ⟨c + 3, pc.dataset.val⟩
             batch_size := pc.batch_size
             example_length := pc.example_length
             time := pc.time
             times := ⟨sc.times.id, pc.times.val⟩
             grades := ⟨sc.grades.id, pc.grades.val⟩
             baseline := pc.baseline
             baseline_grades := ⟨sc.baseline_grades.id, pc.baseline_grades.val⟩
             relative_grades := ⟨sc.relative_grades.id, pc.relative_grades.val⟩ } pp,
       c + 9) := by
  simp [Student.pop, Student.parent, clone_eq, Student.core, cloneCore]

theorem study_eq (e : ℚ) (sm : ModelV → ModelV) (so : OptV → OptV)
    (sc : SCore) (par : Option Student) :
    Student.study e sm so (.mk sc par) =
      (let batch := sc.dataset.val.batchf sc.batch_size sc.example_length
       let grade := FVal.sub (.fin 1) (FVal.mean ((sc.model.val.f batch).map nan_to_num))
       let bg_rg : FVal × FVal :=
         match sc.baseline with
         | some b =>
             let bg := FVal.sub (.fin 1) (FVal.mean (b.val.f batch))
             (bg, grade.div (FVal.add (.fin (1 / 10 ^ 8)) bg))
         | none => (grade, .fin 1)
       .mk { sc with
             model := ⟨sc.model.id, sm sc.model.val⟩
             optimizer := ⟨sc.optimizer.id, so sc.optimizer.val⟩
             time := sc.time + e
             times := ⟨sc.times.id, sc.times.val ++ [e]⟩
             grades := ⟨sc.grades.id, sc.grades.val ++ [grade]⟩
             baseline_grades := ⟨sc.baseline_grades.id, sc.baseline_grades.val ++ [bg_rg.1]⟩
             relative_grades := ⟨sc.relative_grades.id, sc.relative_grades.val ++ [bg_rg.2]⟩ }
         par) := by
  cases hb : sc.baseline <;> simp [Student.study, hb, Option.map]

theorem applyOp_parent (o : Op) (s : Student) :
    (applyOp o s).parent = s.parent := by
  cases o <;> cases s <;>
    simp [applyOp, Student.study, Student.mutate, Student.parent]

theorem applyOps_parent (ops : List Op) (s : Student) :
    (applyOps ops s).parent = s.parent := by
  induction ops generalizing s with
  | nil => rfl
  | cons o t ih =>
      simp [applyOps, List.foldl] at ih ⊢
      rw [ih, applyOp_parent]

theorem pop_eq_of_parent (c : Nat) (s : Student) (pc : SCore) (pp : Option Student)
    (h : s.parent = some (.mk pc pp)) :
    Student.pop c s =
      (.mk { sid := s.core.sid
             model := ⟨c + 1, pc.model.val⟩
             optimizer := ⟨c + 2, pc.optimizer.val⟩
             dataset := ⟨c + 3, pc.dataset.val⟩
             batch_size := pc.batch_size
             example_length := pc.example_length
             time := pc.time
             times := ⟨s.core.times.id, pc.times.val⟩
             grades := ⟨s.core.grades.id, pc.grades.val⟩
             baseline := pc.baseline
             baseline_grades := ⟨s.core.baseline_grades.id, pc.baseline_grades.val⟩
             relative_grades := ⟨s.core.relative_grades.id, pc.relative_grades.val⟩ } pp,
       c + 9) := by
  cases s with
  | mk sc2 par2 =>
    simp only [Student.parent] at h
    subst h
    simpa [Student.core] using pop_some c sc2 pc pp

/-! ### C1: push / pop round trip -/

/-- C1: for every Student state, `push()` then immediately `pop()` restores
`model`, `optimizer`, `dataset`, `batch_size`, `example_length`, `time` and
the contents of all four metric sequences to their exact pre-`push()`
values, and the same restoration to the last-`push()` state holds when any
sequence of `study()` and `mutate()` calls (the empty sequence included) is
performed between the `push()` and the `pop()`. -/
theorem C1_push_study_mutate_pop_round_trip
    (sc : SCore) (par : Option Student) (c c2 : Nat) (ops : List Op) :
    ((Student.pop c2 (applyOps ops (Student.push c (.mk sc par)).1)).1.core.model.val
        = sc.model.val)
    ∧ ((Student.pop c2 (applyOps ops (Student.push c (.mk sc par)).1)).1.core.optimizer.val
        = sc.optimizer.val)
    ∧ ((Student.pop c2 (applyOps ops (Student.push c (.mk sc par)).1)).1.core.dataset.val
        = sc.dataset.val)
    ∧ ((Student.pop c2 (applyOps ops (Student.push c (.mk sc par)).1)).1.core.batch_size
        = sc.batch_size)
    ∧ ((Student.pop c2 (applyOps ops (Student.push c (.mk sc par)).1)).1.core.example_length
        = sc.example_length)
    ∧ ((Student.pop c2 (applyOps ops (Student.push c (.mk sc par)).1)).1.core.time
        = sc.time)
    ∧ ((Student.pop c2 (applyOps ops (Student.push c (.mk sc par)).1)).1.core.times.val
        = sc.times.val)
    ∧ ((Student.pop c2 (applyOps ops (Student.push c (.mk sc par)).1)).1.core.grades.val
        = sc.grades.val)
    ∧ ((Student.pop c2 (applyOps ops (Student.push c (.mk sc par)).1)).1.core.baseline_grades.val
        = sc.baseline_grades.val)
    ∧ ((Student.pop c2 (applyOps ops (Student.push c (.mk sc par)).1)).1.core.relative_grades.val
        = sc.relative_grades.val) := by
  have hparent :
      (applyOps ops (Student.push c (.mk sc par)).1).parent
        = some (.mk (cloneCore c sc) none) := by
    rw [applyOps_parent, push_eq]
    simp [Student.parent]
  rw [pop_eq_of_parent c2 _ (cloneCore c sc) none hparent]
  simp [Student.core, cloneCore]

/-! ### C2: metric-sequence invariant -/

theorem invB_mk (sc : SCore) (p : Option Student) :
    invB (.mk sc p) = (coreInvB sc && invOpt p) := by
  cases p <;> simp [invB, invOpt]

theorem invB_deepcopy (c : Nat) (s : Student) :
    invB (Student.deepcopy c s).1 = invB s := by
  cases s with
  | mk sc p =>
    cases p with
    | none => simp [Student.deepcopy, invB, coreInvB, Student.retagCore]
    | some q =>
        have ih := invB_deepcopy c q
        simp [Student.deepcopy, invB, coreInvB, Student.retagCore, ih]

/-- Sample collaborators used to instantiate witnesses. -/
def mEmpty : ModelV := ⟨fun _ => [], 0, 0, []⟩

def oZero : OptV := ⟨fun _ => 0⟩

def dEmpty : DatasetV := ⟨fun _ _ => []⟩

def sDemo : Student := Student.init 0 mEmpty oZero dEmpty 4 8

/-- C2: the predicate "the four metric sequences have equal lengths and
`time = sum(times)`" (extended through the parent chain) holds for a fresh
`Student` and is preserved by every operation; moreover a completed
`study()` appends exactly one entry to each of the four sequences and adds
the step's elapsed time to `time`. -/
theorem C2_invariant_all_operations :
    (∀ c m o d bs el, invB (Student.init c m o d bs el) = true)
    ∧ (∀ e sm so sc par,
        (Student.study e sm so (.mk sc par)).core.times.val = sc.times.val ++ [e]
        ∧ (Student.study e sm so (.mk sc par)).core.grades.val.length
            = sc.grades.val.length + 1
        ∧ (Student.study e sm so (.mk sc par)).core.baseline_grades.val.length
            = sc.baseline_grades.val.length + 1
        ∧ (Student.study e sm so (.mk sc par)).core.relative_grades.val.length
            = sc.relative_grades.val.length + 1
        ∧ (Student.study e sm so (.mk sc par)).core.time = sc.time + e)
    ∧ (∀ e sm so s, invB s = true → invB (Student.study e sm so s) = true)
    ∧ (∀ c s, invB s = true → invB (Student.push c s).1 = true)
    ∧ (∀ c s, invB s = true → invB (Student.pop c s).1 = true)
    ∧ (∀ c s, invB s = true →
        invB (Student.clone c s).1 = true ∧ invB (Student.clone c s).2.1 = true)
    ∧ (∀ r1 r2 s, invB s = true → invB (Student.mutate r1 r2 s) = true)
    ∧ (∀ c s, invB s = true →
        invB (Student.load_from_path c (Student.save s)).1 = true) := by
  refine ⟨?_, ?_, ?_, ?_, ?_, ?_, ?_, ?_⟩
  · intro c m o d bs el
    simp [Student.init, invB, coreInvB]
  · intro e sm so sc par
    simp [study_eq, Student.core]
  · intro e sm so s h
    cases s with
    | mk sc par =>
      rw [invB_mk] at h
      rw [study_eq]
      simp only [Bool.and_eq_true, coreInvB, beq_iff_eq] at h
      obtain ⟨⟨⟨⟨h1, h2⟩, h3⟩, h4⟩, h5⟩ := h
      simp only [invB_mk, Bool.and_eq_true, coreInvB, beq_iff_eq]
      refine ⟨⟨⟨⟨?_, ?_⟩, ?_⟩, ?_⟩, h5⟩ <;>
        simp [Student.core, h1, h2, h3, h4, List.sum_append]
  · intro c s h
    cases s with
    | mk sc par =>
      rw [invB_mk] at h
      rw [push_eq]
      simp only [Bool.and_eq_true] at h
      rw [invB_mk]
      simp only [Bool.and_eq_true, invOpt, invB_mk]
      refine ⟨?_, ?_, ?_⟩
      · simpa [coreInvB] using h.1
      · simpa [coreInvB, cloneCore] using h.1
      · simp [invOpt]
  · intro c s h
    cases s with
    | mk sc par =>
      cases par with
      | none => simpa [pop_none] using h
      | some p =>
        cases p with
        | mk pc pp =>
          rw [pop_some]
          rw [invB_mk] at h ⊢
          simp only [Bool.and_eq_true, invOpt, invB_mk] at h ⊢
          refine ⟨?_, ?_⟩
          · simpa [coreInvB] using h.2.1
          · exact h.2.2
  · intro c s h
    cases s with
    | mk sc par =>
      rw [clone_eq]
      refine ⟨h, ?_⟩
      rw [invB_mk] at h ⊢
      simp only [Bool.and_eq_true] at h ⊢
      exact ⟨by simpa [coreInvB, cloneCore] using h.1, h.2⟩
  · intro r1 r2 s h
    cases s with
    | mk sc par =>
      rw [invB_mk] at h
      simp only [Bool.and_eq_true] at h
      simp only [Student.mutate, invB_mk, Bool.and_eq_true]
      exact ⟨by simpa [coreInvB] using h.1, h.2⟩
  · intro c s h
    cases s with
    | mk sc par =>
      rw [invB_mk] at h
      simp only [Bool.and_eq_true] at h
      cases par with
      | none =>
        rw [Student.load_from_path]
        simp only [Student.load, Student.save, Student.core, Student.parent]
        rw [invB_mk]
        simp only [Bool.and_eq_true, invOpt]
        refine ⟨by simpa [coreInvB] using h.1, by trivial⟩
      | some p =>
        rw [Student.load_from_path]
        simp only [Student.load, Student.save, Student.core, Student.parent]
        rw [invB_mk]
        simp only [Bool.and_eq_true, invOpt]
        refine ⟨by simpa [coreInvB] using h.1, ?_⟩
        have hd := invB_deepcopy (c + 9) p
        simp only [invOpt] at h
        rw [hd]
        exact h.2

/-- Witness for C2 at a concrete instance: the invariant holds for a fresh
Student and is preserved by a concrete `study()` call on it. -/
theorem C2_invariant_witness :
    invB (Student.study 1 id id sDemo) = true :=
  C2_invariant_all_operations.2.2.1 1 id id sDemo (by decide)

/-! ### C3: effect of `mutate` on `batch_size` and the learning rate -/

/-- A Student with `batch_size = 1` and learning rate `1/1000`. -/
def sBatchOne : Student := Student.init 0 mEmpty ⟨fun _ => 1 / 1000⟩ dEmpty 1 8

/-- Counterexample to C3 as stated: with `batch_size = 1` (so `>= 1`), a
non-negative learning rate at step `0`, and the multiplier draw `0.5` from
the population of `random.choice`, `mutate()` sets
`batch_size = int(0.5 * 1) = 0 < 1` — the code never floors `batch_size`
back up to `1`. -/
theorem C3_batch_size_zero_counterexample :
    ((1 : ℚ) / 2) ∈ Student.lrChoices
    ∧ (1 : Int) ≤ sBatchOne.core.batch_size
    ∧ (0 : ℚ) ≤ sBatchOne.core.optimizer.val.lr 0
    ∧ ¬(1 ≤ (Student.mutate (1 / 2) (1 / 2) sBatchOne).core.batch_size) := by
  refine ⟨by simp [Student.lrChoices], by decide,
    by norm_num [sBatchOne, Student.init, Student.core], ?_⟩
  norm_num [sBatchOne, Student.init, Student.mutate, Student.core, Student.pyInt]

/-- C3 amended: under the claim's learning-rate hypothesis, `mutate()`
always leaves the resolved learning rate (the new constant schedule's value
at every step count) strictly positive, with an exact-zero product floored
to `1e-6`; but the guarantee `batch_size >= 1` only holds from
`batch_size >= 2` on (from `batch_size = 1`, the draws `0.5` and `0.75`
truncate to `0`). -/
theorem C3_mutate_amended (sc : SCore) (par : Option Student) (r1 r2 : ℚ)
    (h1 : r1 ∈ Student.lrChoices) (h2 : r2 ∈ Student.lrChoices)
    (hlr : 0 ≤ sc.optimizer.val.lr 0) (hbs : 2 ≤ sc.batch_size) :
    1 ≤ (Student.mutate r1 r2 (.mk sc par)).core.batch_size
    ∧ (∀ n m : Nat, (Student.mutate r1 r2 (.mk sc par)).core.optimizer.val.lr n
        = (Student.mutate r1 r2 (.mk sc par)).core.optimizer.val.lr m)
    ∧ (∀ n, 0 < (Student.mutate r1 r2 (.mk sc par)).core.optimizer.val.lr n)
    ∧ (sc.optimizer.val.lr 0 * r2 = 0 →
        ∀ n, (Student.mutate r1 r2 (.mk sc par)).core.optimizer.val.lr n
          = 1 / 10 ^ 6) := by
  have hr1 : (1 : ℚ) / 2 ≤ r1 := by
    fin_cases h1 <;> norm_num
  have hr2 : 0 < r2 := by
    fin_cases h2 <;> norm_num
  simp only [Student.mutate, Student.core]
  refine ⟨?_, fun _ _ => trivial, ?_, ?_⟩
  · have hbsq : (2 : ℚ) ≤ (sc.batch_size : ℚ) := by exact_mod_cast hbs
    have hq : (1 : ℚ) ≤ r1 * (sc.batch_size : ℚ) := by
      calc (1 : ℚ) = (1 / 2) * 2 := by norm_num
      _ ≤ r1 * (sc.batch_size : ℚ) := by
          apply mul_le_mul hr1 hbsq (by norm_num)
          exact le_trans (by norm_num) hr1
    have hnonneg : ¬(r1 * (sc.batch_size : ℚ) < 0) := by
      push_neg
      exact le_trans (by norm_num) hq
    simp only [Student.pyInt, hnonneg, if_false]
    rw [Int.le_floor]
    exact_mod_cast hq
  · intro n
    have hl1 : 0 ≤ sc.optimizer.val.lr 0 * r2 := mul_nonneg hlr (le_of_lt hr2)
    by_cases hz : sc.optimizer.val.lr 0 * r2 = 0
    · simp [hz]
    · simp only [hz, if_false]
      exact lt_of_le_of_ne hl1 (Ne.symm hz)
  · intro hz n
    simp [hz]

/-- Witness for the amended C3: from `batch_size = 2` and learning rate
`1/1000`, the draws `r1 = 1/2`, `r2 = 2` leave `batch_size = 1 >= 1` and a
positive learning rate. -/
theorem C3_mutate_amended_witness :
    1 ≤ (Student.mutate (1 / 2) 2
          (.mk (Student.init 0 mEmpty ⟨fun _ => 1 / 1000⟩ dEmpty 2 8).core none)).core.batch_size
    ∧ 0 < (Student.mutate (1 / 2) 2
          (.mk (Student.init 0 mEmpty ⟨fun _ => 1 / 1000⟩ dEmpty 2 8).core none)).core.optimizer.val.lr 0 :=
  have h := C3_mutate_amended
    (Student.init 0 mEmpty ⟨fun _ => 1 / 1000⟩ dEmpty 2 8).core none (1 / 2) 2
    (by simp [Student.lrChoices]) (by simp [Student.lrChoices])
    (by norm_num [Student.init, Student.core])
    (by norm_num [Student.init, Student.core])
  ⟨h.1, h.2.2.1 0⟩

/-! ### C4: the grading formulas of `study` -/

/-- A dataset returning a fixed batch of four examples. -/
def dConst : DatasetV := ⟨fun _ _ => [[0], [0], [0], [0]]⟩

/-- A model returning constant per-example loss `0.3`. -/
def mConst : ModelV :=
  ⟨fun _ => [.fin (3 / 10), .fin (3 / 10), .fin (3 / 10), .fin (3 / 10)], 0, 0, []⟩

/-- A model whose losses include every kind of non-finite value. -/
def mNonFinite : ModelV :=
  ⟨fun _ => [.nan, .pinf, .ninf, .fin (2 / 10)], 0, 0, []⟩

def cConst : SCore := (Student.init 0 mConst oZero dConst 4 8).core

def cNonFinite : SCore := (Student.init 0 mNonFinite oZero dConst 4 8).core

/-- C4: every completed `study()` appends `1 - mean(losses)` to `grades`,
where every non-finite loss has first been replaced by `0.0`; with a
baseline set it appends `1 - mean(baseline_losses)` to `baseline_grades`
and `grade/(1e-8 + baseline_grade)` to `relative_grades`; with no baseline
it appends `grade` and `1.0`.  Concretely, a fixed batch and constant loss
`0.3` with no baseline yield `grades == [0.7]`,
`baseline_grades == [0.7]`, `relative_grades == [1.0]`; and losses
`[nan, +inf, -inf, 0.2]` are averaged as `[0, 0, 0, 0.2]`, giving grade
`0.95`. -/
theorem C4_study_grade_formulas (e : ℚ) (sm : ModelV → ModelV) (so : OptV → OptV)
    (sc : SCore) (par : Option Student) :
    ((Student.study e sm so (.mk sc par)).core.grades.val
      = sc.grades.val ++ [FVal.sub (.fin 1)
          (FVal.mean ((sc.model.val.f
            (sc.dataset.val.batchf sc.batch_size sc.example_length)).map nan_to_num))])
    ∧ (∀ b, sc.baseline = some b →
        (Student.study e sm so (.mk sc par)).core.baseline_grades.val
          = sc.baseline_grades.val ++ [FVal.sub (.fin 1)
              (FVal.mean (b.val.f
                (sc.dataset.val.batchf sc.batch_size sc.example_length)))]
        ∧ (Student.study e sm so (.mk sc par)).core.relative_grades.val
          = sc.relative_grades.val ++ [FVal.div
              (FVal.sub (.fin 1)
                (FVal.mean ((sc.model.val.f
                  (sc.dataset.val.batchf sc.batch_size sc.example_length)).map nan_to_num)))
              (FVal.add (.fin (1 / 10 ^ 8))
                (FVal.sub (.fin 1)
                  (FVal.mean (b.val.f
                    (sc.dataset.val.batchf sc.batch_size sc.example_length)))))])
    ∧ (sc.baseline = none →
        (Student.study e sm so (.mk sc par)).core.baseline_grades.val
          = sc.baseline_grades.val ++ [FVal.sub (.fin 1)
              (FVal.mean ((sc.model.val.f
                (sc.dataset.val.batchf sc.batch_size sc.example_length)).map nan_to_num))]
        ∧ (Student.study e sm so (.mk sc par)).core.relative_grades.val
          = sc.relative_grades.val ++ [.fin 1])
    ∧ ((Student.study 1 id id (.mk cConst none)).core.grades.val = [.fin (7 / 10)]
        ∧ (Student.study 1 id id (.mk cConst none)).core.baseline_grades.val
            = [.fin (7 / 10)]
        ∧ (Student.study 1 id id (.mk cConst none)).core.relative_grades.val
            = [.fin 1])
    ∧ (Student.study 1 id id (.mk cNonFinite none)).core.grades.val
        = [.fin (19 / 20)] := by
  refine ⟨?_, ?_, ?_, ?_, ?_⟩
  · rw [study_eq]
    simp [Student.core]
  · intro b hb
    rw [study_eq]
    simp [Student.core, hb]
  · intro hb
    rw [study_eq]
    simp [Student.core, hb]
  · refine ⟨?_, ?_, ?_⟩ <;>
      norm_num [study_eq, cConst, mConst, oZero, dConst, Student.init, Student.core,
        FVal.mean, FVal.sub, FVal.add, FVal.neg, FVal.div, nan_to_num]
  · norm_num [study_eq, cNonFinite, mNonFinite, oZero, dConst, Student.init, Student.core,
      FVal.mean, FVal.sub, FVal.add, FVal.neg, FVal.div, nan_to_num]

/-- Witness for C4: the no-baseline branch instantiated at the constant-loss
Student. -/
theorem C4_study_grade_formulas_witness :
    (Student.study 1 id id (.mk cConst none)).core.baseline_grades.val
      = cConst.baseline_grades.val ++ [FVal.sub (.fin 1)
          (FVal.mean ((cConst.model.val.f
            (cConst.dataset.val.batchf cConst.batch_size cConst.example_length)).map
              nan_to_num))]
    ∧ (Student.study 1 id id (.mk cConst none)).core.relative_grades.val
      = cConst.relative_grades.val ++ [.fin 1] :=
  (C4_study_grade_formulas 1 id id cConst none).2.2.1 rfl

/-! ### C5: save / load round trip -/

theorem untagCore_retag (c : Nat) (sc : SCore) :
    untagCore (Student.retagCore c sc) = untagCore sc := by
  cases hb : sc.baseline <;>
    simp [untagCore, Student.retagCore, hb]

theorem untag_deepcopy (c : Nat) (s : Student) :
    untag (Student.deepcopy c s).1 = untag s := by
  cases s with
  | mk sc p =>
    cases p with
    | none => simp [Student.deepcopy, untag, untagCore_retag]
    | some q =>
        have ih := untag_deepcopy c q
        simp [Student.deepcopy, untag, untagCore_retag, ih]

/-- C5: a Student saved and reloaded via `load_from_path` has
field-for-field equal `batch_size`, `example_length`, `time`, `times`,
`grades`, `baseline_grades`, `relative_grades`, and structurally equivalent
(identity tags erased) `model`, `optimizer`, `dataset`, `parent`,
`baseline` — including the null cases of `parent` and `baseline`. -/
theorem C5_save_load_round_trip (s : Student) (c : Nat) :
    ((Student.load_from_path c (Student.save s)).1.core.batch_size = s.core.batch_size)
    ∧ ((Student.load_from_path c (Student.save s)).1.core.example_length
        = s.core.example_length)
    ∧ ((Student.load_from_path c (Student.save s)).1.core.time = s.core.time)
    ∧ ((Student.load_from_path c (Student.save s)).1.core.times.val = s.core.times.val)
    ∧ ((Student.load_from_path c (Student.save s)).1.core.grades.val = s.core.grades.val)
    ∧ ((Student.load_from_path c (Student.save s)).1.core.baseline_grades.val
        = s.core.baseline_grades.val)
    ∧ ((Student.load_from_path c (Student.save s)).1.core.relative_grades.val
        = s.core.relative_grades.val)
    ∧ ((Student.load_from_path c (Student.save s)).1.core.model.val = s.core.model.val)
    ∧ ((Student.load_from_path c (Student.save s)).1.core.optimizer.val
        = s.core.optimizer.val)
    ∧ ((Student.load_from_path c (Student.save s)).1.core.dataset.val
        = s.core.dataset.val)
    ∧ (((Student.load_from_path c (Student.save s)).1.parent).map untag
        = s.parent.map untag)
    ∧ (((Student.load_from_path c (Student.save s)).1.core.baseline).map Tagged.val
        = s.core.baseline.map Tagged.val) := by
  cases s with
  | mk sc par =>
    cases par with
    | none =>
      cases hb : sc.baseline <;>
        simp [Student.load_from_path, Student.load, Student.save, Student.init,
          Student.core, Student.parent, hb]
    | some p =>
      cases hb : sc.baseline <;>
        simp [Student.load_from_path, Student.load, Student.save, Student.init,
          Student.core, Student.parent, hb, untag_deepcopy]

/-! ### C6: clone shares `parent`/`baseline` and deep-copies the rest -/

/-- C6: with fresh ids available (every id in the Student is below the
allocation counter), `clone()` leaves the original Student unchanged (the
temporary detach of `parent`/`baseline` is fully undone), the clone holds
the identical `parent` and `baseline` references, and its model, optimizer,
dataset and four metric sequences are distinct objects (fresh identities)
whose contents equal the original's at clone time; `batch_size`,
`example_length` and `time` are copied as plain values. -/
theorem C6_clone_shares_anchors_copies_rest
    (sc : SCore) (par : Option Student) (c : Nat)
    (h : maxId (.mk sc par) < c) :
    ((Student.clone c (.mk sc par)).1 = .mk sc par)
    ∧ ((Student.clone c (.mk sc par)).2.1.parent = par)
    ∧ ((Student.clone c (.mk sc par)).2.1.core.baseline = sc.baseline)
    ∧ ((Student.clone c (.mk sc par)).2.1.core.sid ≠ sc.sid)
    ∧ ((Student.clone c (.mk sc par)).2.1.core.model.id ≠ sc.model.id)
    ∧ ((Student.clone c (.mk sc par)).2.1.core.model.val = sc.model.val)
    ∧ ((Student.clone c (.mk sc par)).2.1.core.optimizer.id ≠ sc.optimizer.id)
    ∧ ((Student.clone c (.mk sc par)).2.1.core.optimizer.val = sc.optimizer.val)
    ∧ ((Student.clone c (.mk sc par)).2.1.core.dataset.id ≠ sc.dataset.id)
    ∧ ((Student.clone c (.mk sc par)).2.1.core.dataset.val = sc.dataset.val)
    ∧ ((Student.clone c (.mk sc par)).2.1.core.times.id ≠ sc.times.id)
    ∧ ((Student.clone c (.mk sc par)).2.1.core.times.val = sc.times.val)
    ∧ ((Student.clone c (.mk sc par)).2.1.core.grades.id ≠ sc.grades.id)
    ∧ ((Student.clone c (.mk sc par)).2.1.core.grades.val = sc.grades.val)
    ∧ ((Student.clone c (.mk sc par)).2.1.core.baseline_grades.id ≠ sc.baseline_grades.id)
    ∧ ((Student.clone c (.mk sc par)).2.1.core.baseline_grades.val = sc.baseline_grades.val)
    ∧ ((Student.clone c (.mk sc par)).2.1.core.relative_grades.id ≠ sc.relative_grades.id)
    ∧ ((Student.clone c (.mk sc par)).2.1.core.relative_grades.val = sc.relative_grades.val)
    ∧ ((Student.clone c (.mk sc par)).2.1.core.batch_size = sc.batch_size)
    ∧ ((Student.clone c (.mk sc par)).2.1.core.example_length = sc.example_length)
    ∧ ((Student.clone c (.mk sc par)).2.1.core.time = sc.time) := by
  have hle : coreMaxId sc ≤ maxId (.mk sc par) := by
    cases par with
    | none => simp [maxId]
    | some p => simp [maxId]
  have hcore : coreMaxId sc < c := lt_of_le_of_lt hle h
  have hids : sc.sid < c ∧ sc.model.id < c ∧ sc.optimizer.id < c
      ∧ sc.dataset.id < c ∧ sc.times.id < c ∧ sc.grades.id < c
      ∧ sc.baseline_grades.id < c ∧ sc.relative_grades.id < c := by
    simp only [coreMaxId] at hcore
    omega
  rw [clone_eq]
  refine ⟨rfl, rfl, rfl, ?_, ?_, rfl, ?_, rfl, ?_, rfl, ?_, rfl, ?_, rfl, ?_, rfl,
    ?_, rfl, rfl, rfl, rfl⟩ <;>
    (simp only [Student.core, Student.parent, cloneCore]; omega)

/-- Witness for C6: the fresh-id hypothesis discharged at the demo Student
(all ids at most `8`) with counter `100`. -/
theorem C6_clone_witness :
    (Student.clone 100 (.mk sDemo.core none)).1 = .mk sDemo.core none
    ∧ (Student.clone 100 (.mk sDemo.core none)).2.1.core.model.id
        ≠ sDemo.core.model.id :=
  have h := C6_clone_shares_anchors_copies_rest sDemo.core none 100
    (by norm_num [maxId, coreMaxId, sDemo, Student.init, Student.core])
  ⟨h.1, h.2.2.2.2.1⟩

/-! ### C7: pop with no parent is a no-op -/

/-- C7: for every Student whose `parent` is unset, `pop()` leaves every
field unchanged and raises no error — it is a defined no-op. -/
theorem C7_pop_without_push_is_noop (c : Nat) (s : Student)
    (h : s.parent = none) : Student.pop c s = (s, c) := by
  cases s with
  | mk sc par =>
    simp only [Student.parent] at h
    subst h
    exact pop_none c sc

/-- Witness for C7: a freshly constructed Student has `parent = None` and
`pop()` returns it unchanged. -/
theorem C7_pop_noop_witness : Student.pop 5 sDemo = (sDemo, 5) :=
  C7_pop_without_push_is_noop 5 sDemo rfl

/-! ### C8: push keeps a depth-1 snapshot stack -/

/-- C8: `push()` first discards the existing `parent`, so the stored
parent's own parent is always `None` (snapshot depth exactly 1), and
`baseline` becomes exactly the model object held by the new parent (the
same reference).  After two consecutive `push()` calls, `pop()` restores
only to the state as of the second `push()` — every field value returns to
that state, the `baseline` is the one installed by the first push (part of
the state at the second push), and `parent` becomes `None`, so the first
pushed state is irrecoverable. -/
theorem C8_push_depth_one_second_push_wins
    (c c2 c3 : Nat) (sc : SCore) (par : Option Student) :
    (∃ p, ((Student.push c (.mk sc par)).1).parent = some p
        ∧ p.parent = none
        ∧ ((Student.push c (.mk sc par)).1).core.baseline = some p.core.model)
    ∧ ((Student.pop c3 (Student.push c2 (Student.push c (.mk sc par)).1).1).1.core.model.val
        = sc.model.val)
    ∧ ((Student.pop c3 (Student.push c2 (Student.push c (.mk sc par)).1).1).1.core.optimizer.val
        = sc.optimizer.val)
    ∧ ((Student.pop c3 (Student.push c2 (Student.push c (.mk sc par)).1).1).1.core.dataset.val
        = sc.dataset.val)
    ∧ ((Student.pop c3 (Student.push c2 (Student.push c (.mk sc par)).1).1).1.core.batch_size
        = sc.batch_size)
    ∧ ((Student.pop c3 (Student.push c2 (Student.push c (.mk sc par)).1).1).1.core.example_length
        = sc.example_length)
    ∧ ((Student.pop c3 (Student.push c2 (Student.push c (.mk sc par)).1).1).1.core.time
        = sc.time)
    ∧ ((Student.pop c3 (Student.push c2 (Student.push c (.mk sc par)).1).1).1.core.times.val
        = sc.times.val)
    ∧ ((Student.pop c3 (Student.push c2 (Student.push c (.mk sc par)).1).1).1.core.grades.val
        = sc.grades.val)
    ∧ ((Student.pop c3 (Student.push c2 (Student.push c (.mk sc par)).1).1).1.core.baseline_grades.val
        = sc.baseline_grades.val)
    ∧ ((Student.pop c3 (Student.push c2 (Student.push c (.mk sc par)).1).1).1.core.relative_grades.val
        = sc.relative_grades.val)
    ∧ ((Student.pop c3 (Student.push c2 (Student.push c (.mk sc par)).1).1).1.core.baseline
        = ((Student.push c (.mk sc par)).1).core.baseline)
    ∧ ((Student.pop c3 (Student.push c2 (Student.push c (.mk sc par)).1).1).1.parent
        = none) := by
  refine ⟨⟨.mk (cloneCore c sc) none, ?_, rfl, ?_⟩, ?_⟩
  · rw [push_eq]
    rfl
  · rw [push_eq]
    rfl
  · rw [push_eq, push_eq, pop_some]
    simp [Student.core, Student.parent, cloneCore, push_eq]

/-! ### C9: autocomplete truncation, generation count and output -/

theorem pySliceLast_suffix (n : Nat) (l : List α) :
    ∃ pre, l = pre ++ pySliceLast n l := by
  unfold pySliceLast
  split
  · exact ⟨[], rfl⟩
  · exact ⟨l.take (l.length - n), (List.take_append_drop _ l).symm⟩

theorem pySliceLast_length (n : Nat) (h : 1 ≤ n) (l : List α) :
    (pySliceLast n l).length = min n l.length := by
  unfold pySliceLast
  split
  · omega
  · rw [List.length_drop]
    omega

theorem sampler_gen_length (f : List Nat → Nat) (nc n : Nat) (x : List Nat)
    (o : Option (List Nat)) : (Student.sampler f nc n x o).1.length = n := by
  induction n generalizing x o with
  | zero => rfl
  | succ n ih => simp [Student.sampler, ih]

theorem sampler_output_append (f : List Nat → Nat) (nc n : Nat) (x : List Nat)
    (o : List Nat) :
    (Student.sampler f nc n x (some o)).2
      = some (o ++ (Student.sampler f nc n x (some o)).1) := by
  induction n generalizing x o with
  | zero => simp [Student.sampler]
  | succ n ih =>
      simp only [Student.sampler, Option.map]
      rw [ih]
      simp

/-- Counterexample to C9 as stated: with `n_ctx = 0` the Python slice
`x[-n_ctx:]` is `x[-0:] = x[0:]`, the whole list, so the encoded prompt is
not truncated to its last `0` tokens (which would be `[]`): the running
context keeps all three prompt tokens. -/
theorem C9_no_truncation_at_zero_ctx :
    Student.autocompleteInit (fun _ => [1, 2, 3]) "abc" 0 = [1, 2, 3]
    ∧ ([1, 2, 3] : List Nat) ≠ [] := by
  exact ⟨rfl, by decide⟩

/-- C9 amended: provided `n_ctx >= 1`, the encoded prompt is truncated to
its last `n_ctx` tokens before generation (a suffix of length
`min n_ctx (length prompt)`), the loop runs exactly `n_generate`
iterations, a supplied output accumulator receives exactly the `n_generate`
raw sampled token ids in generation order, the returned value is the
decoding of exactly those `n_generate` tokens, and after each sampled token
the running context is trimmed to at most its last `n_ctx` tokens. -/
theorem C9_autocomplete_amended (encode : String → List Nat)
    (decode : List Nat → String) (sample : List Nat → Nat) (prompt : String)
    (n_generate n_ctx : Nat) (output : List Nat) (h : 1 ≤ n_ctx) :
    (∃ pre, encode prompt = pre ++ Student.autocompleteInit encode prompt n_ctx)
    ∧ (Student.autocompleteInit encode prompt n_ctx).length
        = min n_ctx (encode prompt).length
    ∧ (Student.sampler sample n_ctx n_generate
        (Student.autocompleteInit encode prompt n_ctx) (some output)).1.length
        = n_generate
    ∧ (Student.sampler sample n_ctx n_generate
        (Student.autocompleteInit encode prompt n_ctx) (some output)).2
        = some (output ++ (Student.sampler sample n_ctx n_generate
            (Student.autocompleteInit encode prompt n_ctx) (some output)).1)
    ∧ Student.autocomplete encode decode sample prompt n_generate n_ctx (some output)
        = (decode (Student.sampler sample n_ctx n_generate
              (Student.autocompleteInit encode prompt n_ctx) (some output)).1,
           some (output ++ (Student.sampler sample n_ctx n_generate
              (Student.autocompleteInit encode prompt n_ctx) (some output)).1))
    ∧ (∀ (x : List Nat) (y : Nat), (pySliceLast n_ctx (x ++ [y])).length ≤ n_ctx) := by
  refine ⟨pySliceLast_suffix n_ctx (encode prompt),
    pySliceLast_length n_ctx h (encode prompt),
    sampler_gen_length sample n_ctx n_generate _ (some output),
    sampler_output_append sample n_ctx n_generate _ output,
    ?_, ?_⟩
  · simp only [Student.autocomplete]
    rw [sampler_output_append]
  · intro x y
    rw [pySliceLast_length n_ctx h]
    omega

/-- Witness for the amended C9 at a concrete instance: prompt tokens
`[1, 2, 3]`, `n_ctx = 2`, `n_generate = 2`, constant sampler. -/
theorem C9_autocomplete_amended_witness :
    (Student.sampler (fun _ => 7) 2 2
        (Student.autocompleteInit (fun _ => [1, 2, 3]) "abc" 2) (some [])).1.length = 2
    ∧ (Student.sampler (fun _ => 7) 2 2
        (Student.autocompleteInit (fun _ => [1, 2, 3]) "abc" 2) (some [])).2
        = some ([] ++ (Student.sampler (fun _ => 7) 2 2
            (Student.autocompleteInit (fun _ => [1, 2, 3]) "abc" 2) (some [])).1) :=
  have h := C9_autocomplete_amended (fun _ => [1, 2, 3]) (fun _ => "")
    (fun _ => 7) "abc" 2 2 [] (by norm_num)
  ⟨h.2.2.1, h.2.2.2.1⟩

/-! ### C10: `parameter_histograms` and the missing `math` import -/

/-- A Student whose model has one named parameter. -/
def sOneParam : Student :=
  Student.init 0 ⟨fun _ => [], 0, 0, [("weight", 10)]⟩ oZero dEmpty 1 1

/-- C10: whenever the model has at least one named parameter,
`parameter_histograms()` raises a `NameError` before returning (the names
`math.floor` / `math.sqrt` are used but `math` is never imported in the
module), so the documented dictionary is returned only when the model has
no parameters at all, as the empty dictionary. -/
theorem C10_parameter_histograms_name_error (s : Student) :
    (s.core.model.val.params = [] → Student.parameter_histograms s = .ok [])
    ∧ (s.core.model.val.params ≠ [] →
        Student.parameter_histograms s
          = .error "NameError: name math is not defined") := by
  constructor
  · intro h
    simp [Student.parameter_histograms, h]
  · intro h
    cases hp : s.core.model.val.params with
    | nil => exact absurd hp h
    | cons a t => simp [Student.parameter_histograms, hp]

/-- Witness for C10: the no-parameter model returns the empty dictionary,
the one-parameter model hits the `NameError`. -/
theorem C10_parameter_histograms_witness :
    Student.parameter_histograms sDemo = .ok []
    ∧ Student.parameter_histograms sOneParam
        = .error "NameError: name math is not defined" :=
  ⟨(C10_parameter_histograms_name_error sDemo).1 rfl,
   (C10_parameter_histograms_name_error sOneParam).2
     (by simp [sOneParam, Student.init, Student.core])⟩
